import Mathlib

/-!
Verification of the rawpy thumbnail service (src/app.py) against its
natural-language specification.

The Python service is embedded shallowly:
* `downloadLoop` / `writtenBytes` embed the chunked download loop of
  `download_raw_file` (app.py lines 19-31); a chunk is represented by its
  byte count, since the loop only ever inspects `len(chunk)`.
* `upload_to_convex` embeds the upload helper (lines 33-50).
* `resizedDims` embeds the scale-to-fit computation shared by both
  conversion endpoints (lines 86-95 and 182-191); Python float arithmetic
  is modelled by exact rational arithmetic, and Python `int()` truncation
  on the nonnegative products involved is `Int.floor`.
* `handleConversion` embeds the request handlers `generate_thumbnail`
  (lines 52-136) and `generate_high_quality_jpeg` (lines 138-233),
  parameterised by the preset data in which the two differ.  External
  effects (the HTTP GET for the RAW file, the rawpy decode, the JPEG byte
  size on disk, the upload POST) are supplied by an `Env` oracle, and the
  filesystem is a list of (temp-directory id, file name) pairs so that the
  `tempfile.TemporaryDirectory` scope can be stated as a frame property.
-/

namespace RawpyService

/-- Download size cap from app.py line 27: `100 * 1024 * 1024` bytes. -/
def MAX_DOWNLOAD_BYTES : Nat := 100 * 1024 * 1024

/-- Chunk size requested from `iter_content` at app.py line 23. -/
def CHUNK_SIZE : Nat := 8192

/-- The download loop of `download_raw_file` (app.py lines 22-28) over the
stream of chunk byte-counts: each chunk is written, the running count is
increased, and the loop aborts with the literal error message of line 28 as
soon as the count exceeds the cap.  Returns the final byte count. -/
def downloadLoop : List Nat → Nat → Except String Nat
  | [], size => Except.ok size
  | c :: cs, size =>
    let size' := size + c
    if MAX_DOWNLOAD_BYTES < size' then Except.error "File too large (>100MB)"
    else downloadLoop cs size'

/-- Total number of bytes the loop writes to the destination file: the chunk
is written (line 24) before the size check (line 27), so an aborting chunk is
included; chunks after the abort are not. -/
def writtenBytes : List Nat → Nat → Nat
  | [], size => size
  | c :: cs, size =>
    let size' := size + c
    if MAX_DOWNLOAD_BYTES < size' then size' else writtenBytes cs size'

/-- Python exception classes distinguished by the handlers: the first
`except` clause (app.py line 125 / 222) catches `requests.RequestException`,
the second (line 131 / 228) catches every remaining `Exception`. -/
inductive PyError where
  | requestException (msg : String)
  | exception (msg : String)
deriving DecidableEq, Repr

/-- Transport-level outcome of `requests.get` plus `raise_for_status`
(app.py lines 19-20): either a raised `RequestException` message, or the
stream of chunk byte-counts delivered by `iter_content`. -/
def DownloadStream := Except String (List Nat)

/-- `download_raw_file` (app.py lines 15-31): a transport failure surfaces
as a `RequestException`; the size-cap abort of line 28 is a plain
`Exception`.  On success the byte count is returned (line 31). -/
def download_raw_file (dl : Except String (List Nat)) : Except PyError Nat :=
  match dl with
  | Except.error m => Except.error (PyError.requestException m)
  | Except.ok chunks =>
    match downloadLoop chunks 0 with
    | Except.error m => Except.error (PyError.exception m)
    | Except.ok n => Except.ok n

/-- Response of the upload endpoint as observed by `upload_to_convex`:
HTTP status, body text, and the `storageId` field of the parsed JSON body
(`none` when the field is absent). -/
structure UploadResp where
  status_code : Nat
  text : String
  storageId : Option String
deriving DecidableEq, Repr

/-- `upload_to_convex` (app.py lines 33-50).  A raised transport error from
`requests.post` is a `RequestException`; a non-200 status raises the
`Upload failed` message of line 44; a missing (or falsy, i.e. empty)
`storageId` raises the message of line 48; otherwise the id is returned. -/
def upload_to_convex (up : Except String UploadResp) : Except PyError String :=
  match up with
  | Except.error m => Except.error (PyError.requestException m)
  | Except.ok resp =>
    if resp.status_code ≠ 200 then
      Except.error (PyError.exception
        ("Upload failed: " ++ toString resp.status_code ++ " - " ++ resp.text))
    else
      match resp.storageId with
      | none => Except.error (PyError.exception "No storageId returned by Convex")
      | some sid =>
        if sid = "" then Except.error (PyError.exception "No storageId returned by Convex")
        else Except.ok sid

/-- JSON values, for request bodies (`request.get_json()`) and response
bodies (`jsonify`). -/
inductive JVal where
  | null
  | str (s : String)
  | num (n : Nat)
  | bool (b : Bool)
  | arr (xs : List JVal)
  | obj (fields : List (String × JVal))

/-- Python truthiness of a JSON value, as used by `if not raw_url or not
upload_url` (app.py line 59): `None`, empty string, zero, `False`, empty
list and empty dict are falsy. -/
def pyFalsy : JVal → Bool
  | JVal.null => true
  | JVal.str s => s = ""
  | JVal.num n => n = 0
  | JVal.bool b => !b
  | JVal.arr xs => xs.isEmpty
  | JVal.obj fs => fs.isEmpty

/-- `dict.get key` on a parsed JSON object: `None` (here `JVal.null`) when
the key is absent. -/
def jget (fields : List (String × JVal)) (key : String) : JVal :=
  match fields.lookup key with
  | none => JVal.null
  | some v => v

/-- Preset data in which `generate_thumbnail` and
`generate_high_quality_jpeg` differ, as far as the handler's own logic is
concerned: the target bounding box (app.py line 87 / 183), the JPEG file
name in the temp directory (line 65 / 151) and the `type` tag of the
success response (line 122 / 219). -/
structure Preset where
  targetWidth : Nat
  targetHeight : Nat
  jpegName : String
  typeName : String
deriving DecidableEq, Repr

/-- The `/generate-thumbnail` preset: 400 x 300 box (app.py line 87). -/
def thumbnailPreset : Preset := ⟨400, 300, "thumbnail.jpg", "thumbnail"⟩

/-- The `/generate-high-quality-jpeg` preset: 1920 x 1440 box (line 183). -/
def highQualityPreset : Preset := ⟨1920, 1440, "high_quality.jpg", "high_quality"⟩

/-- The scale-to-fit computation of app.py lines 90-95 (and 186-191):
`scale_ratio = min(target_width / original_width, target_height /
original_height)` with no clamping, and `int(...)` truncation of the two
nonnegative products, i.e. their floor. -/
def resizedDims (tw th ow oh : Nat) : Nat × Nat :=
  let widthScale : ℚ := (tw : ℚ) / (ow : ℚ)
  let heightScale : ℚ := (th : ℚ) / (oh : ℚ)
  let scaleFactor : ℚ := min widthScale heightScale
  ((⌊(ow : ℚ) * scaleFactor⌋).toNat, (⌊(oh : ℚ) * scaleFactor⌋).toNat)

/-- The environment oracle for one request: the unique id of the temp
directory handed out by `tempfile.TemporaryDirectory`, the outcomes of the
external interactions (download transport, rawpy decode giving the decoded
image's width and height, the byte size of the encoded JPEG reported by
`os.path.getsize`, and the upload POST). -/
structure Env where
  tmpId : Nat
  downloadOutcome : Except String (List Nat)
  decodeOutcome : Except String (Nat × Nat)
  jpegSize : Nat
  uploadOutcome : Except String UploadResp

/-- Payload of the success response (app.py lines 117-123 / 214-220). -/
structure SuccessData where
  sid : String
  newWidth : Nat
  newHeight : Nat
  jpegSize : Nat
deriving DecidableEq, Repr

/-- The body of the `try` block (app.py lines 62-123 / 148-220), run inside
the temp-directory scope.  Returns the pipeline outcome together with the
files created inside the temp directory and whether the upload POST was
ever issued.  The raw file `input.dng` exists once `open(raw_path, "wb")`
has run inside `download_raw_file`; the JPEG exists once `img_resized.save`
has run; dimensions follow `resizedDims`. -/
def pipelineStep (preset : Preset) (env : Env) :
    Except PyError SuccessData × List (Nat × String) × Bool :=
  match download_raw_file env.downloadOutcome with
  | Except.error (PyError.requestException m) =>
    (Except.error (PyError.requestException m), [], false)
  | Except.error (PyError.exception m) =>
    (Except.error (PyError.exception m), [(env.tmpId, "input.dng")], false)
  | Except.ok _ =>
    match env.decodeOutcome with
    | Except.error m =>
      (Except.error (PyError.exception m), [(env.tmpId, "input.dng")], false)
    | Except.ok (ow, oh) =>
      let dims := resizedDims preset.targetWidth preset.targetHeight ow oh
      let files := [(env.tmpId, "input.dng"), (env.tmpId, preset.jpegName)]
      match upload_to_convex env.uploadOutcome with
      | Except.error e => (Except.error e, files, true)
      | Except.ok sid =>
        (Except.ok ⟨sid, dims.1, dims.2, env.jpegSize⟩, files, true)

/-- Removing the per-request temp directory: `tempfile.TemporaryDirectory`
deletes every file under the directory on scope exit, on every control
path. -/
def cleanupTmp (d : Nat) (fs : List (Nat × String)) : List (Nat × String) :=
  fs.filter (fun f => f.1 ≠ d)

/-- What an endpoint run produces, seen from outside. -/
inductive HandlerOutcome where
  | response (status : Nat) (body : List (String × JVal))
  | uncaught (msg : String)

/-- Result of one request: the HTTP outcome, the filesystem after the
request, and whether the download GET and the upload POST were issued. -/
structure RunResult where
  outcome : HandlerOutcome
  fs : List (Nat × String)
  downloadCalled : Bool
  uploadCalled : Bool

/-- Shared embedding of the handlers `generate_thumbnail` (app.py lines
52-136) and `generate_high_quality_jpeg` (lines 138-233), which differ only
in their `Preset`.  `body` is the value returned by `request.get_json()`
(`none` when it yields no value).  Attribute access `data.get` on a
non-dict raises an uncaught `AttributeError` before the validation check
and before the `try` block; validation failure returns the 400 body of
line 60; otherwise the pipeline runs inside the temp-directory scope and
its outcome is translated exactly as lines 117-136. -/
def handleConversion (preset : Preset) (body : Option JVal) (env : Env)
    (fs0 : List (Nat × String)) : RunResult :=
  match body with
  | none =>
    ⟨HandlerOutcome.uncaught "AttributeError: NoneType object has no attribute get",
      fs0, false, false⟩
  | some (JVal.obj fields) =>
    let raw_url := jget fields "rawFileUrl"
    let upload_url := jget fields "uploadUrl"
    if pyFalsy raw_url || pyFalsy upload_url then
      ⟨HandlerOutcome.response 400 [("error", JVal.str "Missing rawFileUrl or uploadUrl")],
        fs0, false, false⟩
    else
      let step := pipelineStep preset env
      let fsFinal := cleanupTmp env.tmpId (fs0 ++ step.2.1)
      let outcome :=
        match step.1 with
        | Except.ok d =>
          HandlerOutcome.response 200
            [("success", JVal.bool true),
             ("storageId", JVal.str d.sid),
             ("dimensions", JVal.str (toString d.newWidth ++ "x" ++ toString d.newHeight)),
             ("fileSize", JVal.num d.jpegSize),
             ("type", JVal.str preset.typeName)]
        | Except.error (PyError.requestException m) =>
          HandlerOutcome.response 500
            [("error", JVal.str "Network error during processing"),
             ("details", JVal.str m)]
        | Except.error (PyError.exception m) =>
          HandlerOutcome.response 500
            [("error", JVal.str "RAW to JPEG conversion failed"),
             ("details", JVal.str m)]
      ⟨outcome, fsFinal, true, step.2.2⟩
  | some _ =>
    ⟨HandlerOutcome.uncaught "AttributeError: object has no attribute get",
      fs0, false, false⟩

/-- The `/generate-thumbnail` handler (app.py lines 52-136). -/
def generate_thumbnail : Option JVal → Env → List (Nat × String) → RunResult :=
  handleConversion thumbnailPreset

/-- The `/generate-high-quality-jpeg` handler (app.py lines 138-233). -/
def generate_high_quality_jpeg : Option JVal → Env → List (Nat × String) → RunResult :=
  handleConversion highQualityPreset

/-- A chunk stream of 12801 full 8 KiB chunks: 12800 of them reach the cap
exactly, the final one crosses it. -/
def oversizedStream : List Nat := List.replicate 12801 8192

/-- A well-formed request body. -/
def goodFields : List (String × JVal) :=
  [("rawFileUrl", JVal.str "http://x/a.dng"), ("uploadUrl", JVal.str "http://y/upload")]

/-- A request body missing `rawFileUrl`. -/
def missingFieldBody : List (String × JVal) := [("uploadUrl", JVal.str "http://y/upload")]

/-- An upload endpoint response carrying a storage id. -/
def okResp : UploadResp := ⟨200, "ok", some "st123"⟩

/-- An environment in which every external interaction succeeds. -/
def goodEnv : Env := ⟨7, Except.ok [4096], Except.ok (800, 600), 5000, Except.ok okResp⟩

/-- An environment whose upload endpoint answers with status 502. -/
def badStatusEnv : Env :=
  ⟨7, Except.ok [4096], Except.ok (800, 600), 5000, Except.ok ⟨502, "bad gateway", none⟩⟩

/-- An environment whose upload endpoint answers 200 without a storageId. -/
def noStorageEnv : Env :=
  ⟨7, Except.ok [4096], Except.ok (800, 600), 5000, Except.ok ⟨200, "no id", none⟩⟩

/-- An environment whose download GET fails at the transport level. -/
def netFailEnv : Env :=
  ⟨7, Except.error "connection refused", Except.ok (800, 600), 5000, Except.ok okResp⟩

/-! ### Lemmas about the download loop -/

theorem downloadLoop_ok_le {l : List Nat} {s t : Nat} (hs : s ≤ MAX_DOWNLOAD_BYTES)
    (h : downloadLoop l s = Except.ok t) : t ≤ MAX_DOWNLOAD_BYTES := by
  induction l generalizing s with
  | nil =>
    simp only [downloadLoop, Except.ok.injEq] at h
    omega
  | cons c cs ih =>
    by_cases hc : MAX_DOWNLOAD_BYTES < s + c
    · simp [downloadLoop, hc] at h
    · simp only [downloadLoop, if_neg hc] at h
      exact ih (by omega) h

theorem downloadLoop_append_ok {pre : List Nat} {s t : Nat}
    (h : downloadLoop pre s = Except.ok t) (l : List Nat) :
    downloadLoop (pre ++ l) s = downloadLoop l t := by
  induction pre generalizing s with
  | nil =>
    simp only [downloadLoop, Except.ok.injEq] at h
    rw [List.nil_append, h]
  | cons c cs ih =>
    by_cases hc : MAX_DOWNLOAD_BYTES < s + c
    · simp [downloadLoop, hc] at h
    · simp only [downloadLoop, if_neg hc] at h
      simp only [List.cons_append, downloadLoop, if_neg hc]
      exact ih h

theorem writtenBytes_append_ok {pre : List Nat} {s t : Nat}
    (h : downloadLoop pre s = Except.ok t) (l : List Nat) :
    writtenBytes (pre ++ l) s = writtenBytes l t := by
  induction pre generalizing s with
  | nil =>
    simp only [downloadLoop, Except.ok.injEq] at h
    rw [List.nil_append, h]
  | cons c cs ih =>
    by_cases hc : MAX_DOWNLOAD_BYTES < s + c
    · simp [downloadLoop, hc] at h
    · simp only [downloadLoop, if_neg hc] at h
      simp only [List.cons_append, writtenBytes, if_neg hc]
      exact ih h

theorem writtenBytes_le {l : List Nat} {s K : Nat} (hs : s ≤ MAX_DOWNLOAD_BYTES)
    (hc : ∀ c ∈ l, c ≤ K) : writtenBytes l s ≤ MAX_DOWNLOAD_BYTES + K := by
  induction l generalizing s with
  | nil =>
    simp only [writtenBytes]
    omega
  | cons c cs ih =>
    have hcK : c ≤ K := hc c (List.mem_cons_self c cs)
    by_cases h : MAX_DOWNLOAD_BYTES < s + c
    · simp only [writtenBytes, if_pos h]
      omega
    · simp only [writtenBytes, if_neg h]
      exact ih (by omega) (fun d hd => hc d (List.mem_cons_of_mem _ hd))

theorem downloadLoop_error_written {l : List Nat} {s : Nat} {e : String}
    (h : downloadLoop l s = Except.error e) :
    MAX_DOWNLOAD_BYTES < writtenBytes l s := by
  induction l generalizing s with
  | nil => exact Except.noConfusion h
  | cons c cs ih =>
    by_cases hc : MAX_DOWNLOAD_BYTES < s + c
    · simp only [writtenBytes, if_pos hc]
      exact hc
    · simp only [downloadLoop, if_neg hc] at h
      simp only [writtenBytes, if_neg hc]
      exact ih h

theorem downloadLoop_replicate {n s : Nat} (h : s + n * 8192 ≤ MAX_DOWNLOAD_BYTES) :
    downloadLoop (List.replicate n 8192) s = Except.ok (s + n * 8192) := by
  induction n generalizing s with
  | zero => simp [downloadLoop]
  | succ m ih =>
    have hc : ¬ MAX_DOWNLOAD_BYTES < s + 8192 := by omega
    rw [List.replicate_succ]
    simp only [downloadLoop, if_neg hc]
    rw [ih (by omega)]
    congr 1
    omega

/-! ### Claims C2 and C9: the download size cap -/

/-- Claim C2 (amended): on every stream, if the loop has processed a prefix
reaching byte count `t` (necessarily at most the cap) and the next chunk `c`
carries the count past 100 MiB, then `download_raw_file`'s loop aborts with
the explicit `File too large` error; that crossing chunk is written before
the abort, and nothing after it is written or consumed, so the bytes on disk
are exactly `t + c`, which exceeds the cap by at most the size of the one
crossing chunk. -/
theorem download_abort_behavior (pre rest : List Nat) (c t : Nat)
    (hok : downloadLoop pre 0 = Except.ok t)
    (hcross : MAX_DOWNLOAD_BYTES < t + c) :
    downloadLoop (pre ++ c :: rest) 0 = Except.error "File too large (>100MB)" ∧
    writtenBytes (pre ++ c :: rest) 0 = t + c ∧
    t ≤ MAX_DOWNLOAD_BYTES := by
  refine ⟨?_, ?_, downloadLoop_ok_le (Nat.zero_le _) hok⟩
  · rw [downloadLoop_append_ok hok]
    simp only [downloadLoop, if_pos hcross]
  · rw [writtenBytes_append_ok hok]
    simp only [writtenBytes, if_pos hcross]

/-- Witness for `download_abort_behavior` at a concrete stream. -/
theorem download_abort_behavior_witness :
    downloadLoop [8192] 0 = Except.ok 8192 ∧
    MAX_DOWNLOAD_BYTES < 8192 + MAX_DOWNLOAD_BYTES ∧
    (downloadLoop ([8192] ++ MAX_DOWNLOAD_BYTES :: [5]) 0 =
        Except.error "File too large (>100MB)" ∧
      writtenBytes ([8192] ++ MAX_DOWNLOAD_BYTES :: [5]) 0 = 8192 + MAX_DOWNLOAD_BYTES ∧
      8192 ≤ MAX_DOWNLOAD_BYTES) :=
  ⟨rfl, by decide,
    download_abort_behavior [8192] [5] MAX_DOWNLOAD_BYTES 8192 rfl (by decide)⟩

/-- Counterexample to claim C2 as stated: on a stream of 12801 full 8 KiB
chunks the loop aborts, but the bytes written to disk total the cap plus one
full chunk, i.e. the service does write past the 100 MiB cap (by exactly the
crossing chunk). -/
theorem download_writes_past_cap :
    downloadLoop oversizedStream 0 = Except.error "File too large (>100MB)" ∧
    MAX_DOWNLOAD_BYTES < writtenBytes oversizedStream 0 ∧
    writtenBytes oversizedStream 0 = MAX_DOWNLOAD_BYTES + 8192 := by
  have hpre : downloadLoop (List.replicate 12800 8192) 0 = Except.ok (0 + 12800 * 8192) :=
    downloadLoop_replicate (by decide)
  have hsplit : oversizedStream = List.replicate 12800 8192 ++ [8192] := by
    show List.replicate (12800 + 1) 8192 = _
    rw [List.replicate_succ']
  have h1 : downloadLoop oversizedStream 0 = Except.error "File too large (>100MB)" := by
    rw [hsplit, downloadLoop_append_ok hpre]
    rfl
  have h2 : writtenBytes oversizedStream 0 = MAX_DOWNLOAD_BYTES + 8192 := by
    rw [hsplit, writtenBytes_append_ok hpre]
    rfl
  exact ⟨h1, by rw [h2]; decide, h2⟩

/-- Claim C9: the size check runs after each chunk is written, so the bytes
written never exceed the cap plus one chunk (8192 bytes); before each
iteration the accumulated count is at most the cap (any fully processed
prefix ends at or below it); and when the loop aborts, the chunk that
carried the total past the cap has already been written, so the bytes on
disk exceed the cap at that moment. -/
theorem download_cap_loop_invariant (chunks : List Nat)
    (hc : ∀ c ∈ chunks, c ≤ CHUNK_SIZE) :
    writtenBytes chunks 0 ≤ MAX_DOWNLOAD_BYTES + CHUNK_SIZE ∧
    (∀ pre post t, chunks = pre ++ post → downloadLoop pre 0 = Except.ok t →
      t ≤ MAX_DOWNLOAD_BYTES) ∧
    (∀ e, downloadLoop chunks 0 = Except.error e →
      MAX_DOWNLOAD_BYTES < writtenBytes chunks 0) := by
  refine ⟨writtenBytes_le (Nat.zero_le _) hc, ?_, ?_⟩
  · intro pre post t _ hok
    exact downloadLoop_ok_le (Nat.zero_le _) hok
  · intro e he
    exact downloadLoop_error_written he

/-- Witness for `download_cap_loop_invariant` at a concrete stream. -/
theorem download_cap_loop_invariant_witness :
    (∀ c ∈ [100, 8192], c ≤ CHUNK_SIZE) ∧
    (writtenBytes [100, 8192] 0 ≤ MAX_DOWNLOAD_BYTES + CHUNK_SIZE ∧
      (∀ pre post t, [100, 8192] = pre ++ post → downloadLoop pre 0 = Except.ok t →
        t ≤ MAX_DOWNLOAD_BYTES) ∧
      (∀ e, downloadLoop [100, 8192] 0 = Except.error e →
        MAX_DOWNLOAD_BYTES < writtenBytes [100, 8192] 0)) :=
  ⟨by decide, download_cap_loop_invariant [100, 8192] (by decide)⟩

/-! ### Claim C1: validation rejects missing or empty fields before any network call -/

/-- Claim C1: for every POST body (a JSON object) in which `rawFileUrl` or
`uploadUrl` is missing, or either is present but the empty string, both
handlers return HTTP 400 with an `error` field, and neither the download
GET nor the upload POST is issued. -/
theorem missing_fields_400 (fields : List (String × JVal)) (env : Env)
    (fs0 : List (Nat × String))
    (h : fields.lookup "rawFileUrl" = none ∨ fields.lookup "rawFileUrl" = some (JVal.str "") ∨
      fields.lookup "uploadUrl" = none ∨ fields.lookup "uploadUrl" = some (JVal.str "")) :
    (generate_thumbnail (some (JVal.obj fields)) env fs0).outcome =
      HandlerOutcome.response 400 [("error", JVal.str "Missing rawFileUrl or uploadUrl")] ∧
    (generate_thumbnail (some (JVal.obj fields)) env fs0).downloadCalled = false ∧
    (generate_thumbnail (some (JVal.obj fields)) env fs0).uploadCalled = false ∧
    (generate_high_quality_jpeg (some (JVal.obj fields)) env fs0).outcome =
      HandlerOutcome.response 400 [("error", JVal.str "Missing rawFileUrl or uploadUrl")] ∧
    (generate_high_quality_jpeg (some (JVal.obj fields)) env fs0).downloadCalled = false ∧
    (generate_high_quality_jpeg (some (JVal.obj fields)) env fs0).uploadCalled = false := by
  have hcond : (pyFalsy (jget fields "rawFileUrl") || pyFalsy (jget fields "uploadUrl")) = true := by
    rcases h with h | h | h | h <;> simp [jget, h, pyFalsy]
  refine ⟨?_, ?_, ?_, ?_, ?_, ?_⟩ <;>
    simp [generate_thumbnail, generate_high_quality_jpeg, handleConversion, hcond]

/-- Witness for `missing_fields_400` on a body lacking `rawFileUrl`. -/
theorem missing_fields_400_witness :
    missingFieldBody.lookup "rawFileUrl" = none ∧
    ((generate_thumbnail (some (JVal.obj missingFieldBody)) goodEnv []).outcome =
        HandlerOutcome.response 400 [("error", JVal.str "Missing rawFileUrl or uploadUrl")] ∧
      (generate_thumbnail (some (JVal.obj missingFieldBody)) goodEnv []).downloadCalled = false ∧
      (generate_thumbnail (some (JVal.obj missingFieldBody)) goodEnv []).uploadCalled = false ∧
      (generate_high_quality_jpeg (some (JVal.obj missingFieldBody)) goodEnv []).outcome =
        HandlerOutcome.response 400 [("error", JVal.str "Missing rawFileUrl or uploadUrl")] ∧
      (generate_high_quality_jpeg (some (JVal.obj missingFieldBody)) goodEnv []).downloadCalled = false ∧
      (generate_high_quality_jpeg (some (JVal.obj missingFieldBody)) goodEnv []).uploadCalled = false) :=
  ⟨rfl, missing_fields_400 missingFieldBody goodEnv [] (Or.inl rfl)⟩

/-! ### Claim C10: a body that yields no dict escapes the documented contract -/

/-- Claim C10: when `request.get_json()` yields no dictionary (no value at
all, or a JSON value that is not an object), the attribute access
`data.get` raises before the validation check and before the `try` block:
the handler produces an uncaught exception rather than any HTTP response of
the documented contract, and no network call is made. -/
theorem nondict_body_uncaught (preset : Preset) (body : Option JVal) (env : Env)
    (fs0 : List (Nat × String))
    (h : body = none ∨ ∃ j, body = some j ∧ ∀ fields, j ≠ JVal.obj fields) :
    (∃ m, (handleConversion preset body env fs0).outcome = HandlerOutcome.uncaught m) ∧
    (∀ st b, (handleConversion preset body env fs0).outcome ≠ HandlerOutcome.response st b) ∧
    (handleConversion preset body env fs0).downloadCalled = false ∧
    (handleConversion preset body env fs0).uploadCalled = false := by
  rcases h with h | ⟨j, hj, hno⟩
  · subst h
    refine ⟨⟨_, rfl⟩, ?_, rfl, rfl⟩
    intro st b hc
    simp [handleConversion] at hc
  · subst hj
    cases j with
    | obj fields => exact absurd rfl (hno fields)
    | null =>
      refine ⟨⟨_, rfl⟩, ?_, rfl, rfl⟩
      intro st b hc
      simp [handleConversion] at hc
    | str s =>
      refine ⟨⟨_, rfl⟩, ?_, rfl, rfl⟩
      intro st b hc
      simp [handleConversion] at hc
    | num n =>
      refine ⟨⟨_, rfl⟩, ?_, rfl, rfl⟩
      intro st b hc
      simp [handleConversion] at hc
    | bool v =>
      refine ⟨⟨_, rfl⟩, ?_, rfl, rfl⟩
      intro st b hc
      simp [handleConversion] at hc
    | arr xs =>
      refine ⟨⟨_, rfl⟩, ?_, rfl, rfl⟩
      intro st b hc
      simp [handleConversion] at hc

/-- Witness for `nondict_body_uncaught` on an absent JSON body. -/
theorem nondict_body_uncaught_witness :
    ((none : Option JVal) = none ∨
      ∃ j, (none : Option JVal) = some j ∧ ∀ fields, j ≠ JVal.obj fields) ∧
    ((∃ m, (handleConversion thumbnailPreset none goodEnv []).outcome =
        HandlerOutcome.uncaught m) ∧
      (∀ st b, (handleConversion thumbnailPreset none goodEnv []).outcome ≠
        HandlerOutcome.response st b) ∧
      (handleConversion thumbnailPreset none goodEnv []).downloadCalled = false ∧
      (handleConversion thumbnailPreset none goodEnv []).uploadCalled = false) :=
  ⟨Or.inl rfl, nondict_body_uncaught thumbnailPreset none goodEnv [] (Or.inl rfl)⟩

/-! ### Claim C8: every pipeline error maps to 500, kinds split by text only -/

/-- Claim C8: every error raised inside the `try` block of a validated
request is caught and translated to HTTP 500 with a body holding exactly an
`error` and a `details` field; a `requests.RequestException` and every other
exception yield the same status and body shape, differing only in the
`error` message text (`Network error during processing` versus
`RAW to JPEG conversion failed`), with the original message in `details`. -/
theorem errors_translated_500 (preset : Preset) (fields : List (String × JVal)) (env : Env)
    (fs0 : List (Nat × String))
    (hvalid : (pyFalsy (jget fields "rawFileUrl") || pyFalsy (jget fields "uploadUrl")) = false) :
    (∀ m, (pipelineStep preset env).1 = Except.error (PyError.requestException m) →
      (handleConversion preset (some (JVal.obj fields)) env fs0).outcome =
        HandlerOutcome.response 500
          [("error", JVal.str "Network error during processing"), ("details", JVal.str m)]) ∧
    (∀ m, (pipelineStep preset env).1 = Except.error (PyError.exception m) →
      (handleConversion preset (some (JVal.obj fields)) env fs0).outcome =
        HandlerOutcome.response 500
          [("error", JVal.str "RAW to JPEG conversion failed"), ("details", JVal.str m)]) := by
  constructor <;> intro m hm <;> simp [handleConversion, hvalid, hm]

/-- Witness for `errors_translated_500` on a failing download GET. -/
theorem errors_translated_500_witness :
    ((pyFalsy (jget goodFields "rawFileUrl") || pyFalsy (jget goodFields "uploadUrl")) = false) ∧
    (handleConversion thumbnailPreset (some (JVal.obj goodFields)) netFailEnv []).outcome =
      HandlerOutcome.response 500
        [("error", JVal.str "Network error during processing"),
         ("details", JVal.str "connection refused")] :=
  ⟨by decide,
    (errors_translated_500 thumbnailPreset goodFields netFailEnv [] (by decide)).1
      "connection refused" rfl⟩

/-! ### Claim C5: a non-200 upload response yields 500 with the upstream data -/

/-- Claim C5: when the upload endpoint answers with a status other than 200
(on a validated request whose download and decode succeeded), the handler
returns HTTP 500 whose `details` field carries the upstream status code and
response text, and no success response is produced. -/
theorem upload_non200_500 (preset : Preset) (fields : List (String × JVal)) (env : Env)
    (fs0 : List (Nat × String)) (resp : UploadResp) (n ow oh : Nat)
    (hvalid : (pyFalsy (jget fields "rawFileUrl") || pyFalsy (jget fields "uploadUrl")) = false)
    (hdl : download_raw_file env.downloadOutcome = Except.ok n)
    (hdec : env.decodeOutcome = Except.ok (ow, oh))
    (hup : env.uploadOutcome = Except.ok resp)
    (hst : resp.status_code ≠ 200) :
    (handleConversion preset (some (JVal.obj fields)) env fs0).outcome =
      HandlerOutcome.response 500
        [("error", JVal.str "RAW to JPEG conversion failed"),
         ("details",
          JVal.str ("Upload failed: " ++ toString resp.status_code ++ " - " ++ resp.text))] ∧
    (∀ b, (handleConversion preset (some (JVal.obj fields)) env fs0).outcome ≠
      HandlerOutcome.response 200 b) := by
  have hupc : upload_to_convex env.uploadOutcome =
      Except.error (PyError.exception
        ("Upload failed: " ++ toString resp.status_code ++ " - " ++ resp.text)) := by
    simp [upload_to_convex, hup, hst]
  have h1 : (handleConversion preset (some (JVal.obj fields)) env fs0).outcome =
      HandlerOutcome.response 500
        [("error", JVal.str "RAW to JPEG conversion failed"),
         ("details",
          JVal.str ("Upload failed: " ++ toString resp.status_code ++ " - " ++ resp.text))] := by
    simp [handleConversion, hvalid, pipelineStep, hdl, hdec, hupc]
  refine ⟨h1, ?_⟩
  intro b hb
  rw [h1] at hb
  injection hb with h500 _
  exact absurd h500 (by decide)

/-- Witness for `upload_non200_500` on a 502 upload response. -/
theorem upload_non200_500_witness :
    (502 ≠ 200) ∧
    ((handleConversion thumbnailPreset (some (JVal.obj goodFields)) badStatusEnv []).outcome =
        HandlerOutcome.response 500
          [("error", JVal.str "RAW to JPEG conversion failed"),
           ("details", JVal.str ("Upload failed: " ++ toString 502 ++ " - " ++ "bad gateway"))] ∧
      (∀ b, (handleConversion thumbnailPreset (some (JVal.obj goodFields)) badStatusEnv
          []).outcome ≠ HandlerOutcome.response 200 b)) :=
  ⟨by decide,
    upload_non200_500 thumbnailPreset goodFields badStatusEnv [] ⟨502, "bad gateway", none⟩
      4096 800 600 (by decide) rfl rfl rfl (by decide)⟩

/-! ### Claim C6: a 200 upload response without storageId yields 500 -/

/-- Claim C6: when the upload endpoint answers 200 but its JSON body has no
`storageId` field (on a validated request whose download and decode
succeeded), the handler returns HTTP 500 with an error body, never a
success response. -/
theorem upload_missing_storage_id_500 (preset : Preset) (fields : List (String × JVal))
    (env : Env) (fs0 : List (Nat × String)) (resp : UploadResp) (n ow oh : Nat)
    (hvalid : (pyFalsy (jget fields "rawFileUrl") || pyFalsy (jget fields "uploadUrl")) = false)
    (hdl : download_raw_file env.downloadOutcome = Except.ok n)
    (hdec : env.decodeOutcome = Except.ok (ow, oh))
    (hup : env.uploadOutcome = Except.ok resp)
    (hst : resp.status_code = 200)
    (hsid : resp.storageId = none) :
    (handleConversion preset (some (JVal.obj fields)) env fs0).outcome =
      HandlerOutcome.response 500
        [("error", JVal.str "RAW to JPEG conversion failed"),
         ("details", JVal.str "No storageId returned by Convex")] ∧
    (∀ b, (handleConversion preset (some (JVal.obj fields)) env fs0).outcome ≠
      HandlerOutcome.response 200 b) := by
  have hupc : upload_to_convex env.uploadOutcome =
      Except.error (PyError.exception "No storageId returned by Convex") := by
    simp [upload_to_convex, hup, hst, hsid]
  have h1 : (handleConversion preset (some (JVal.obj fields)) env fs0).outcome =
      HandlerOutcome.response 500
        [("error", JVal.str "RAW to JPEG conversion failed"),
         ("details", JVal.str "No storageId returned by Convex")] := by
    simp [handleConversion, hvalid, pipelineStep, hdl, hdec, hupc]
  refine ⟨h1, ?_⟩
  intro b hb
  rw [h1] at hb
  injection hb with h500 _
  exact absurd h500 (by decide)

/-- Witness for `upload_missing_storage_id_500`. -/
theorem upload_missing_storage_id_500_witness :
    (noStorageEnv.uploadOutcome = Except.ok ⟨200, "no id", none⟩) ∧
    ((handleConversion thumbnailPreset (some (JVal.obj goodFields)) noStorageEnv []).outcome =
        HandlerOutcome.response 500
          [("error", JVal.str "RAW to JPEG conversion failed"),
           ("details", JVal.str "No storageId returned by Convex")] ∧
      (∀ b, (handleConversion thumbnailPreset (some (JVal.obj goodFields)) noStorageEnv
          []).outcome ≠ HandlerOutcome.response 200 b)) :=
  ⟨rfl,
    upload_missing_storage_id_500 thumbnailPreset goodFields noStorageEnv []
      ⟨200, "no id", none⟩ 4096 800 600 (by decide) rfl rfl rfl rfl rfl⟩

/-! ### Claim C7: the temp directory is deleted on every exit path -/

theorem pipelineStep_files_tmp (preset : Preset) (env : Env) :
    ∀ f ∈ (pipelineStep preset env).2.1, f.1 = env.tmpId := by
  intro f hf
  unfold pipelineStep at hf
  rcases hdl : download_raw_file env.downloadOutcome with e | n
  · rcases e with m | m <;> simp only [hdl] at hf <;> simp at hf
    rw [hf]
  · simp only [hdl] at hf
    rcases hdec : env.decodeOutcome with m | ⟨ow, oh⟩
    · simp only [hdec] at hf
      simp at hf
      rw [hf]
    · simp only [hdec] at hf
      rcases hup : upload_to_convex env.uploadOutcome with e | sid <;>
        simp only [hup] at hf <;> simp at hf <;> rcases hf with rfl | rfl <;> rfl

/-- Claim C7: for every request that passes validation, every file the
request creates lives in the per-request temp directory, and the directory
is removed on every exit path (success, download failure, too-large abort,
decode failure, upload failure): the filesystem after the request equals the
filesystem before it, provided the fresh temp directory id was unused. -/
theorem temp_files_removed (preset : Preset) (fields : List (String × JVal)) (env : Env)
    (fs0 : List (Nat × String))
    (hfresh : ∀ f ∈ fs0, f.1 ≠ env.tmpId)
    (hvalid : (pyFalsy (jget fields "rawFileUrl") || pyFalsy (jget fields "uploadUrl")) = false) :
    (handleConversion preset (some (JVal.obj fields)) env fs0).fs = fs0 := by
  have hfiles := pipelineStep_files_tmp preset env
  have hstep : (handleConversion preset (some (JVal.obj fields)) env fs0).fs =
      cleanupTmp env.tmpId (fs0 ++ (pipelineStep preset env).2.1) := by
    simp [handleConversion, hvalid]
  rw [hstep]
  unfold cleanupTmp
  rw [List.filter_append]
  have h1 : fs0.filter (fun f => f.1 ≠ env.tmpId) = fs0 := by
    rw [List.filter_eq_self]
    intro a ha
    simpa using hfresh a ha
  have h2 : (pipelineStep preset env).2.1.filter (fun f => f.1 ≠ env.tmpId) = [] := by
    rw [List.filter_eq_nil_iff]
    intro a ha
    simp [hfiles a ha]
  rw [h1, h2, List.append_nil]

/-- Witness for `temp_files_removed` on a fully successful request. -/
theorem temp_files_removed_witness :
    (∀ f ∈ [((3 : Nat), "other.txt")], f.1 ≠ goodEnv.tmpId) ∧
    (handleConversion thumbnailPreset (some (JVal.obj goodFields)) goodEnv
      [((3 : Nat), "other.txt")]).fs = [((3 : Nat), "other.txt")] :=
  ⟨by decide,
    temp_files_removed thumbnailPreset goodFields goodEnv [((3 : Nat), "other.txt")]
      (by decide) (by decide)⟩

/-! ### Lemmas about the resize arithmetic -/

theorem scaleFactor_nonneg (tw th ow oh : Nat) :
    0 ≤ min ((tw : ℚ) / (ow : ℚ)) ((th : ℚ) / (oh : ℚ)) :=
  le_min (by positivity) (by positivity)

theorem resizedDims_le_box (tw th ow oh : Nat) (how : 0 < ow) (hoh : 0 < oh) :
    (resizedDims tw th ow oh).1 ≤ tw ∧ (resizedDims tw th ow oh).2 ≤ th := by
  have howQ : (0 : ℚ) < (ow : ℚ) := by exact_mod_cast how
  have hohQ : (0 : ℚ) < (oh : ℚ) := by exact_mod_cast hoh
  constructor
  · show (⌊(ow : ℚ) * min ((tw : ℚ) / (ow : ℚ)) ((th : ℚ) / (oh : ℚ))⌋).toNat ≤ tw
    rw [Int.toNat_le]
    have h1 : (ow : ℚ) * min ((tw : ℚ) / (ow : ℚ)) ((th : ℚ) / (oh : ℚ)) ≤ (tw : ℚ) := by
      have h2 : (ow : ℚ) * min ((tw : ℚ) / (ow : ℚ)) ((th : ℚ) / (oh : ℚ)) ≤
          (ow : ℚ) * ((tw : ℚ) / (ow : ℚ)) :=
        mul_le_mul_of_nonneg_left (min_le_left _ _) howQ.le
      have h3 : (ow : ℚ) * ((tw : ℚ) / (ow : ℚ)) = (tw : ℚ) := by
        field_simp
      linarith
    calc ⌊(ow : ℚ) * min ((tw : ℚ) / (ow : ℚ)) ((th : ℚ) / (oh : ℚ))⌋
        ≤ ⌊(tw : ℚ)⌋ := Int.floor_le_floor h1
      _ = (tw : ℤ) := Int.floor_natCast tw
  · show (⌊(oh : ℚ) * min ((tw : ℚ) / (ow : ℚ)) ((th : ℚ) / (oh : ℚ))⌋).toNat ≤ th
    rw [Int.toNat_le]
    have h1 : (oh : ℚ) * min ((tw : ℚ) / (ow : ℚ)) ((th : ℚ) / (oh : ℚ)) ≤ (th : ℚ) := by
      have h2 : (oh : ℚ) * min ((tw : ℚ) / (ow : ℚ)) ((th : ℚ) / (oh : ℚ)) ≤
          (oh : ℚ) * ((th : ℚ) / (oh : ℚ)) :=
        mul_le_mul_of_nonneg_left (min_le_right _ _) hohQ.le
      have h3 : (oh : ℚ) * ((th : ℚ) / (oh : ℚ)) = (th : ℚ) := by
        field_simp
      linarith
    calc ⌊(oh : ℚ) * min ((tw : ℚ) / (ow : ℚ)) ((th : ℚ) / (oh : ℚ))⌋
        ≤ ⌊(th : ℚ)⌋ := Int.floor_le_floor h1
      _ = (th : ℤ) := Int.floor_natCast th

theorem resizedDims_ratio (tw th ow oh : Nat) (how : 0 < ow) (hoh : 0 < oh) :
    (((resizedDims tw th ow oh).1 : ℤ) * (oh : ℤ) -
      ((resizedDims tw th ow oh).2 : ℤ) * (ow : ℤ)).natAbs ≤ ow + oh := by
  have hs0 : 0 ≤ min ((tw : ℚ) / (ow : ℚ)) ((th : ℚ) / (oh : ℚ)) := scaleFactor_nonneg tw th ow oh
  set s : ℚ := min ((tw : ℚ) / (ow : ℚ)) ((th : ℚ) / (oh : ℚ)) with hsdef
  have ha0 : (0 : ℚ) ≤ (ow : ℚ) * s := by positivity
  have hb0 : (0 : ℚ) ≤ (oh : ℚ) * s := by positivity
  have hA : ((resizedDims tw th ow oh).1 : ℤ) = ⌊(ow : ℚ) * s⌋ := by
    show ((⌊(ow : ℚ) * s⌋).toNat : ℤ) = ⌊(ow : ℚ) * s⌋
    exact Int.toNat_of_nonneg (Int.floor_nonneg.mpr ha0)
  have hB : ((resizedDims tw th ow oh).2 : ℤ) = ⌊(oh : ℚ) * s⌋ := by
    show ((⌊(oh : ℚ) * s⌋).toNat : ℤ) = ⌊(oh : ℚ) * s⌋
    exact Int.toNat_of_nonneg (Int.floor_nonneg.mpr hb0)
  rw [hA, hB]
  have hfa1 : ((⌊(ow : ℚ) * s⌋ : ℤ) : ℚ) ≤ (ow : ℚ) * s := Int.floor_le _
  have hfa2 : (ow : ℚ) * s < ((⌊(ow : ℚ) * s⌋ : ℤ) : ℚ) + 1 := Int.lt_floor_add_one _
  have hfb1 : ((⌊(oh : ℚ) * s⌋ : ℤ) : ℚ) ≤ (oh : ℚ) * s := Int.floor_le _
  have hfb2 : (oh : ℚ) * s < ((⌊(oh : ℚ) * s⌋ : ℤ) : ℚ) + 1 := Int.lt_floor_add_one _
  have hohQ : (0 : ℚ) ≤ (oh : ℚ) := by positivity
  have howQ : (0 : ℚ) ≤ (ow : ℚ) := by positivity
  have key : |(⌊(ow : ℚ) * s⌋ * (oh : ℤ) - ⌊(oh : ℚ) * s⌋ * (ow : ℤ) : ℤ)| ≤
      ((ow : ℤ) + (oh : ℤ)) := by
    rw [abs_le]
    constructor
    · have hq : -((ow : ℚ) + (oh : ℚ)) ≤
          ((⌊(ow : ℚ) * s⌋ : ℤ) : ℚ) * (oh : ℚ) - ((⌊(oh : ℚ) * s⌋ : ℤ) : ℚ) * (ow : ℚ) := by
        nlinarith [mul_le_mul_of_nonneg_right hfb1 howQ,
          mul_le_mul_of_nonneg_right hfa2.le hohQ]
      exact_mod_cast hq
    · have hq : ((⌊(ow : ℚ) * s⌋ : ℤ) : ℚ) * (oh : ℚ) - ((⌊(oh : ℚ) * s⌋ : ℤ) : ℚ) * (ow : ℚ) ≤
          ((ow : ℚ) + (oh : ℚ)) := by
        nlinarith [mul_le_mul_of_nonneg_right hfa1 hohQ,
          mul_le_mul_of_nonneg_right hfb2.le howQ]
      exact_mod_cast hq
  have h2 : ((⌊(ow : ℚ) * s⌋ * (oh : ℤ) - ⌊(oh : ℚ) * s⌋ * (ow : ℤ) : ℤ).natAbs : ℤ) ≤
      ((ow : ℤ) + (oh : ℤ)) := by
    rw [← Int.abs_eq_natAbs]
    exact key
  exact_mod_cast h2

/-! ### Claim C3: the scale-to-fit ratio is not clamped at 1.0 -/

/-- Claim C3: for each preset target box and each positive decoded size, the
resize step computes `scale_ratio = min(targetWidth / originalWidth,
targetHeight / originalHeight)` and resizes to
`int(originalWidth * scale_ratio)` by `int(originalHeight * scale_ratio)`;
there is no clamping at 1.0, so an original strictly smaller than the
target box gets a ratio above 1 and is upscaled to at least its original
size. -/
theorem resize_formula_unclamped (preset : Preset) (ow oh : Nat)
    (hp : preset = thumbnailPreset ∨ preset = highQualityPreset)
    (how : 0 < ow) (hoh : 0 < oh) :
    resizedDims preset.targetWidth preset.targetHeight ow oh =
      ((⌊(ow : ℚ) * min ((preset.targetWidth : ℚ) / (ow : ℚ))
          ((preset.targetHeight : ℚ) / (oh : ℚ))⌋).toNat,
       (⌊(oh : ℚ) * min ((preset.targetWidth : ℚ) / (ow : ℚ))
          ((preset.targetHeight : ℚ) / (oh : ℚ))⌋).toNat) ∧
    (ow < preset.targetWidth → oh < preset.targetHeight →
      1 < min ((preset.targetWidth : ℚ) / (ow : ℚ)) ((preset.targetHeight : ℚ) / (oh : ℚ)) ∧
      ow ≤ (resizedDims preset.targetWidth preset.targetHeight ow oh).1 ∧
      oh ≤ (resizedDims preset.targetWidth preset.targetHeight ow oh).2) := by
  have howQ : (0 : ℚ) < (ow : ℚ) := by exact_mod_cast how
  have hohQ : (0 : ℚ) < (oh : ℚ) := by exact_mod_cast hoh
  refine ⟨rfl, ?_⟩
  intro hw hh
  have h1 : 1 < (preset.targetWidth : ℚ) / (ow : ℚ) :=
    (one_lt_div howQ).mpr (by exact_mod_cast hw)
  have h2 : 1 < (preset.targetHeight : ℚ) / (oh : ℚ) :=
    (one_lt_div hohQ).mpr (by exact_mod_cast hh)
  have hmin : 1 < min ((preset.targetWidth : ℚ) / (ow : ℚ))
      ((preset.targetHeight : ℚ) / (oh : ℚ)) := lt_min h1 h2
  refine ⟨hmin, ?_, ?_⟩
  · show ow ≤ (⌊(ow : ℚ) * min ((preset.targetWidth : ℚ) / (ow : ℚ))
      ((preset.targetHeight : ℚ) / (oh : ℚ))⌋).toNat
    have hle : (ow : ℚ) ≤ (ow : ℚ) * min ((preset.targetWidth : ℚ) / (ow : ℚ))
        ((preset.targetHeight : ℚ) / (oh : ℚ)) := by
      nlinarith
    have hfl : (ow : ℤ) ≤ ⌊(ow : ℚ) * min ((preset.targetWidth : ℚ) / (ow : ℚ))
        ((preset.targetHeight : ℚ) / (oh : ℚ))⌋ := by
      rw [Int.le_floor]
      exact_mod_cast hle
    omega
  · show oh ≤ (⌊(oh : ℚ) * min ((preset.targetWidth : ℚ) / (ow : ℚ))
      ((preset.targetHeight : ℚ) / (oh : ℚ))⌋).toNat
    have hle : (oh : ℚ) ≤ (oh : ℚ) * min ((preset.targetWidth : ℚ) / (ow : ℚ))
        ((preset.targetHeight : ℚ) / (oh : ℚ)) := by
      nlinarith
    have hfl : (oh : ℤ) ≤ ⌊(oh : ℚ) * min ((preset.targetWidth : ℚ) / (ow : ℚ))
        ((preset.targetHeight : ℚ) / (oh : ℚ))⌋ := by
      rw [Int.le_floor]
      exact_mod_cast hle
    omega

/-- Witness for `resize_formula_unclamped` on a 200 x 100 original under the
thumbnail preset (whose box is 400 x 300): the original is upscaled. -/
theorem resize_formula_unclamped_witness :
    (0 < 200 ∧ 0 < 100) ∧
    (resizedDims thumbnailPreset.targetWidth thumbnailPreset.targetHeight 200 100 =
      ((⌊(200 : ℚ) * min ((thumbnailPreset.targetWidth : ℚ) / (200 : ℚ))
          ((thumbnailPreset.targetHeight : ℚ) / (100 : ℚ))⌋).toNat,
       (⌊(100 : ℚ) * min ((thumbnailPreset.targetWidth : ℚ) / (200 : ℚ))
          ((thumbnailPreset.targetHeight : ℚ) / (100 : ℚ))⌋).toNat) ∧
    (200 < thumbnailPreset.targetWidth → 100 < thumbnailPreset.targetHeight →
      1 < min ((thumbnailPreset.targetWidth : ℚ) / (200 : ℚ))
        ((thumbnailPreset.targetHeight : ℚ) / (100 : ℚ)) ∧
      200 ≤ (resizedDims thumbnailPreset.targetWidth thumbnailPreset.targetHeight 200 100).1 ∧
      100 ≤ (resizedDims thumbnailPreset.targetWidth thumbnailPreset.targetHeight 200 100).2)) :=
  ⟨⟨by decide, by decide⟩,
    resize_formula_unclamped thumbnailPreset 200 100 (Or.inl rfl) (by decide) (by decide)⟩

/-! ### Claim C4: reported dimensions match the JPEG and fit the box -/

/-- Claim C4: on every successful conversion whose decoded source is at
least as large as the preset target box, the `dimensions` string of the 200
response is built from exactly the width and height the image was resized
and encoded at (`resizedDims`, which is what `img.resize` produces and what
is saved as JPEG); both dimensions fit inside the preset box, and the
result's aspect ratio matches the original's within integer-rounding
tolerance (cross products differ by at most `originalWidth +
originalHeight`). -/
theorem success_response_dims (preset : Preset) (fields : List (String × JVal)) (env : Env)
    (fs0 : List (Nat × String)) (n ow oh : Nat) (sid : String)
    (hp : preset = thumbnailPreset ∨ preset = highQualityPreset)
    (hvalid : (pyFalsy (jget fields "rawFileUrl") || pyFalsy (jget fields "uploadUrl")) = false)
    (hdl : download_raw_file env.downloadOutcome = Except.ok n)
    (hdec : env.decodeOutcome = Except.ok (ow, oh))
    (hup : upload_to_convex env.uploadOutcome = Except.ok sid)
    (hbw : preset.targetWidth ≤ ow) (hbh : preset.targetHeight ≤ oh) :
    (handleConversion preset (some (JVal.obj fields)) env fs0).outcome =
      HandlerOutcome.response 200
        [("success", JVal.bool true),
         ("storageId", JVal.str sid),
         ("dimensions", JVal.str
           (toString (resizedDims preset.targetWidth preset.targetHeight ow oh).1 ++ "x" ++
            toString (resizedDims preset.targetWidth preset.targetHeight ow oh).2)),
         ("fileSize", JVal.num env.jpegSize),
         ("type", JVal.str preset.typeName)] ∧
    (resizedDims preset.targetWidth preset.targetHeight ow oh).1 ≤ preset.targetWidth ∧
    (resizedDims preset.targetWidth preset.targetHeight ow oh).2 ≤ preset.targetHeight ∧
    (((resizedDims preset.targetWidth preset.targetHeight ow oh).1 : ℤ) * (oh : ℤ) -
      ((resizedDims preset.targetWidth preset.targetHeight ow oh).2 : ℤ) * (ow : ℤ)).natAbs ≤
      ow + oh := by
  have how : 0 < ow := by
    rcases hp with rfl | rfl <;>
      simp only [thumbnailPreset, highQualityPreset] at hbw <;> omega
  have hoh : 0 < oh := by
    rcases hp with rfl | rfl <;>
      simp only [thumbnailPreset, highQualityPreset] at hbh <;> omega
  refine ⟨?_, (resizedDims_le_box _ _ _ _ how hoh).1, (resizedDims_le_box _ _ _ _ how hoh).2,
    resizedDims_ratio _ _ _ _ how hoh⟩
  simp [handleConversion, hvalid, pipelineStep, hdl, hdec, hup]

/-- Witness for `success_response_dims` on a successful 800 x 600 source. -/
theorem success_response_dims_witness :
    (thumbnailPreset.targetWidth ≤ 800 ∧ thumbnailPreset.targetHeight ≤ 600) ∧
    ((handleConversion thumbnailPreset (some (JVal.obj goodFields)) goodEnv []).outcome =
      HandlerOutcome.response 200
        [("success", JVal.bool true),
         ("storageId", JVal.str "st123"),
         ("dimensions", JVal.str
           (toString (resizedDims thumbnailPreset.targetWidth
              thumbnailPreset.targetHeight 800 600).1 ++ "x" ++
            toString (resizedDims thumbnailPreset.targetWidth
              thumbnailPreset.targetHeight 800 600).2)),
         ("fileSize", JVal.num goodEnv.jpegSize),
         ("type", JVal.str thumbnailPreset.typeName)] ∧
    (resizedDims thumbnailPreset.targetWidth thumbnailPreset.targetHeight 800 600).1 ≤
      thumbnailPreset.targetWidth ∧
    (resizedDims thumbnailPreset.targetWidth thumbnailPreset.targetHeight 800 600).2 ≤
      thumbnailPreset.targetHeight ∧
    (((resizedDims thumbnailPreset.targetWidth thumbnailPreset.targetHeight 800 600).1 : ℤ) *
        (600 : ℤ) -
      ((resizedDims thumbnailPreset.targetWidth thumbnailPreset.targetHeight 800 600).2 : ℤ) *
        (800 : ℤ)).natAbs ≤ 800 + 600) :=
  ⟨⟨by decide, by decide⟩,
    success_response_dims thumbnailPreset goodFields goodEnv [] 4096 800 600 "st123"
      (Or.inl rfl) (by decide) rfl rfl rfl (by decide) (by decide)⟩

end RawpyService
